import Mathlib

/-!
Shallow embedding of the nmem v2 extractor (`tools/extract.py`) and the
capture hook's observation classifier (`tools/capture.py`).

Modelling conventions:
* SQLite tables become Lean lists of row structures; `INTEGER PRIMARY KEY`
  auto-assignment becomes explicit `next_prompt_id` / `next_obs_id` counters.
* Python strings are manipulated through their code-point lists
  (`String.toList`), matching Python's character-based slicing.
* The transcript file is passed to the scanner as `Option (List TLine)`:
  `none` models a missing file; each parsed JSONL line is abstracted to the
  fields the scanner reads (entry type and thinking blocks), with
  `TLine.skip` standing for blank or JSON-undecodable lines.
* Timestamps (`int(time.time())`) are explicit `Nat` arguments.
-/

/-- Python `str.strip()` whitespace test (ASCII subset). -/
def isPySpace (c : Char) : Bool :=
  c == ' ' || c == '\t' || c == '\n' || c == '\r' || c == '\x0b' || c == '\x0c'

/-- Python `s.strip()`: drop leading and trailing whitespace. -/
def pyStrip (s : String) : String :=
  (((s.toList.dropWhile isPySpace).reverse.dropWhile isPySpace).reverse).asString

/-- Python `s[:n]`: first `n` characters. -/
def pyTake (s : String) (n : Nat) : String :=
  (s.toList.take n).asString

/-- Python `s.lower()` (code-point wise). -/
def pyToLower (s : String) : String :=
  (s.toList.map Char.toLower).asString

/-- Does `needle` occur at the head of `hay`? (list form of `str.startswith`). -/
def listStarts : List Char → List Char → Bool
  | [], _ => true
  | _ :: _, [] => false
  | a :: as, b :: bs => a == b && listStarts as bs

/-- Python `s.startswith(pre)`. -/
def pyStartsWith (s pre : String) : Bool :=
  listStarts pre.toList s.toList

/-- Does `needle` occur somewhere inside `hay`? -/
def listHasSub (needle : List Char) : List Char → Bool
  | [] => listStarts needle []
  | c :: rest => listStarts needle (c :: rest) || listHasSub needle rest

/-- Python `needle in s` substring test. -/
def strContains (s needle : String) : Bool :=
  listHasSub needle.toList s.toList

/-- Row of the `sessions` table. -/
structure SessionRow where
  id : String
  project : String
  started_at : Nat
  ended_at : Option Nat
  signature : Option String
deriving DecidableEq

/-- Row of the `prompts` table. -/
structure PromptRow where
  id : Nat
  session_id : String
  timestamp : Nat
  source : String
  content : String
deriving DecidableEq

/-- Row of the `observations` table. -/
structure ObsRow where
  id : Nat
  session_id : String
  prompt_id : Option Nat
  timestamp : Nat
  obs_type : String
  source_event : String
  tool_name : Option String
  file_path : Option String
  content : String
deriving DecidableEq

/-- The SQLite database state: the three primary tables plus the `_cursor`
table and the rowid counters for the two autoincrement keys. -/
structure DB where
  sessions : List SessionRow
  prompts : List PromptRow
  observations : List ObsRow
  cursor : List (String × Nat)
  next_prompt_id : Nat
  next_obs_id : Nat
deriving DecidableEq

/-- A content block of an assistant transcript entry, as read by the scanner:
only blocks of type `thinking` (with their text) are distinguished. -/
inductive TBlock where
  | thinking (text : String)
  | other
deriving DecidableEq

/-- One line of the transcript JSONL file, abstracted to what
`scan_transcript` reads: `skip` covers blank lines and lines that fail JSON
decoding, `nonAssistant` covers entries whose type is not `assistant`. -/
inductive TLine where
  | skip
  | nonAssistant
  | assistant (blocks : List TBlock)
deriving DecidableEq

/-- Is this line one the scanner ignores as blank or malformed? -/
def TLine.isSkip : TLine → Bool
  | .skip => true
  | _ => false

/-- Fields of the hook payload consumed by `extract.py` (`payload.get`
defaults already applied; `session_id` keeps its optionality because `main`
tests it). The transcript file the `transcript_path` points at is resolved
to its parsed content, `none` when the file does not exist. -/
structure ToolInput where
  command : Option String := none
  file_path : Option String := none
  pattern : Option String := none
  path : Option String := none
  description : Option String := none
  prompt : Option String := none
  url : Option String := none
  query : Option String := none
  questions : List String := []
deriving DecidableEq

structure Payload where
  hook_event_name : String
  session_id : Option String
  cwd : String := ""
  source : String := "startup"
  prompt : String := ""
  tool_name : String := ""
  tool_input : ToolInput := {}
  transcript : Option (List TLine) := none
deriving DecidableEq

namespace Extract

/-- Split a character list at `/` separators. -/
def splitSlash (acc : List Char) : List Char → List (List Char)
  | [] => [acc.reverse]
  | c :: rest => if c == '/' then acc.reverse :: splitSlash [] rest
                 else splitSlash (c :: acc) rest

/-- Split a path on `/`, ignoring empty components (the `Path.parts` view). -/
def pathParts (s : String) : List String :=
  ((splitSlash [] s.toList).map List.asString).filter (fun p => p ≠ "")

/-- `derive_project` from `extract.py`, with `Path.home()` made explicit as
the `home` argument: relativize `cwd` against the home directory, then return
the first path component not in the skip set; a `cwd` outside home yields its
last component. -/
def derive_project (home cwd : String) : String :=
  if cwd = "" then "unknown"
  else
    let hp := pathParts home
    let cp := pathParts cwd
    if hp.isPrefixOf cp then
      let rel := cp.drop hp.length
      if rel.isEmpty then "home"
      else
        let skip := ["workspace", "dev", "viablesys", "forge"]
        match rel.find? (fun part => !(skip.contains part)) with
        | some part => part
        | none => rel.getLastD "unknown"
  else
    let n := (pathParts cwd).getLastD ""
    if n = "" then "unknown" else n

/-- `ensure_session`: insert a `sessions` row if none with this id exists. -/
def ensure_session (home : String) (db : DB) (session_id cwd : String) (ts : Nat) : DB :=
  if db.sessions.any (fun s => s.id == session_id) then db
  else { db with sessions :=
          db.sessions ++ [⟨session_id, derive_project home cwd, ts, none, none⟩] }

/-- `get_current_prompt_id`: id of the most recent prompt of the session
(`ORDER BY id DESC LIMIT 1`), i.e. the maximal prompt id. -/
def get_current_prompt_id (db : DB) (session_id : String) : Option Nat :=
  ((db.prompts.filter (fun p => p.session_id == session_id)).map (fun p => p.id)).max?

/-- The dedup predicate of the scanner's `SELECT id FROM prompts WHERE
session_id = ? AND source = 'agent' AND content = ?`. -/
def isAgentRow (session_id content : String) (p : PromptRow) : Bool :=
  p.session_id == session_id && p.source == "agent" && p.content == content

/-- Process one content block of an assistant entry, threading the database
and the `latest_prompt_id` accumulator of `scan_transcript`'s loop. -/
def scanBlock (session_id : String) (ts : Nat) (acc : DB × Option Nat) (b : TBlock) :
    DB × Option Nat :=
  match b with
  | .other => acc
  | .thinking raw =>
    let db := acc.1
    let t := pyStrip raw
    if t = "" then acc
    else
      let truncated := pyTake t 2000
      match db.prompts.find? (isAgentRow session_id truncated) with
      | some p => (db, some p.id)
      | none =>
        let pid := db.next_prompt_id
        ({ db with
            prompts := db.prompts ++ [⟨pid, session_id, ts, "agent", truncated⟩],
            next_prompt_id := pid + 1 },
         some pid)

/-- Process one transcript line: blank/malformed and non-assistant lines are
skipped, assistant lines have their blocks scanned in order. -/
def scanLine (session_id : String) (ts : Nat) (acc : DB × Option Nat) (l : TLine) :
    DB × Option Nat :=
  match l with
  | .assistant blocks => blocks.foldl (scanBlock session_id ts) acc
  | _ => acc

/-- `INSERT OR REPLACE INTO _cursor`: replace any row keyed by this session. -/
def cursorUpsert (cs : List (String × Nat)) (session_id : String) (n : Nat) :
    List (String × Nat) :=
  cs.filter (fun c => !(c.1 == session_id)) ++ [(session_id, n)]

/-- Stored cursor for a session, 0 when no row exists. -/
def getCursor (db : DB) (session_id : String) : Nat :=
  match db.cursor.find? (fun c => c.1 == session_id) with
  | some c => c.2
  | none => 0

/-- `scan_transcript`: with a missing transcript, return the current prompt id
untouched; otherwise fold the scanner over the lines past the cursor, then
upsert the cursor to the file's line count (`i + 1` after full enumeration;
unchanged when the file enumerates no lines, mirroring the `"i" in dir()`
guard). -/
def scan_transcript (db : DB) (session_id : String)
    (transcript : Option (List TLine)) (ts : Nat) : DB × Option Nat :=
  match transcript with
  | none => (db, get_current_prompt_id db session_id)
  | some lines =>
    let cursor := getCursor db session_id
    let start : DB × Option Nat := (db, get_current_prompt_id db session_id)
    let stepped := (lines.drop cursor).foldl (scanLine session_id ts) start
    let new_cursor := if lines.isEmpty then cursor else lines.length
    ({ stepped.1 with cursor := cursorUpsert stepped.1.cursor session_id new_cursor },
     stepped.2)

/-- `classify_tool` from `extract.py`. -/
def classify_tool (name : String) : String :=
  match name with
  | "Bash" => "command"
  | "Read" => "file_read"
  | "Write" => "file_write"
  | "Edit" => "file_edit"
  | "Grep" => "search"
  | "Glob" => "search"
  | "Task" => "task_spawn"
  | "WebFetch" => "web_fetch"
  | "WebSearch" => "web_search"
  | _ => if strContains name "__" then "mcp_call" else "tool_" ++ pyToLower name

/-- `extract_content` from `extract.py`. -/
def extract_content (name : String) (ti : ToolInput) : String :=
  match name with
  | "Bash" => pyTake (ti.command.getD "") 500
  | "Read" => ti.file_path.getD ""
  | "Write" => ti.file_path.getD ""
  | "Edit" => ti.file_path.getD ""
  | "Grep" =>
    let pat := ti.pattern.getD ""
    let path := ti.path.getD ""
    if path ≠ "" then pat ++ " in " ++ path else pat
  | "Glob" => ti.pattern.getD ""
  | "Task" =>
    let d := ti.description.getD ""
    if d ≠ "" then d else pyTake (ti.prompt.getD "") 200
  | "WebFetch" => ti.url.getD ""
  | "WebSearch" => ti.query.getD ""
  | "AskUserQuestion" =>
    match ti.questions with
    | [] => name
    | q :: _ => q
  | _ => name

/-- `extract_file_path` from `extract.py`. -/
def extract_file_path (name : String) (ti : ToolInput) : Option String :=
  match name with
  | "Read" => ti.file_path
  | "Write" => ti.file_path
  | "Edit" => ti.file_path
  | "Grep" => ti.path
  | "Glob" => ti.path
  | _ => none

/-- `handle_session_start`: ensure the session, then record a
`session_<source>` observation for compaction/resume/clear starts. -/
def handle_session_start (home : String) (db : DB) (session_id cwd source : String)
    (ts : Nat) : DB :=
  let db := ensure_session home db session_id cwd ts
  if source = "compact" || source = "resume" || source = "clear" then
    { db with
        observations := db.observations ++
          [⟨db.next_obs_id, session_id, get_current_prompt_id db session_id, ts,
            "session_" ++ source, "SessionStart", none, none, source⟩],
        next_obs_id := db.next_obs_id + 1 }
  else db

/-- `handle_user_prompt`: discard empty or system-reminder prompts before
touching the store, else ensure the session and insert a user prompt row. -/
def handle_user_prompt (home : String) (db : DB) (session_id cwd : String) (ts : Nat)
    (prompt : String) : DB :=
  if prompt = "" || pyStartsWith prompt "<system-reminder>" then db
  else
    let db := ensure_session home db session_id cwd ts
    { db with
        prompts := db.prompts ++
          [⟨db.next_prompt_id, session_id, ts, "user", pyTake prompt 500⟩],
        next_prompt_id := db.next_prompt_id + 1 }

/-- `handle_post_tool_use`: ensure the session, scan the transcript, then
insert the classified observation linked to the scan's current prompt. -/
def handle_post_tool_use (home : String) (db : DB) (session_id cwd : String) (ts : Nat)
    (tool_name : String) (tool_input : ToolInput)
    (transcript : Option (List TLine)) : DB :=
  let db := ensure_session home db session_id cwd ts
  let scanned := scan_transcript db session_id transcript ts
  let db := scanned.1
  { db with
      observations := db.observations ++
        [⟨db.next_obs_id, session_id, scanned.2, ts, classify_tool tool_name,
          "PostToolUse", some tool_name, extract_file_path tool_name tool_input,
          extract_content tool_name tool_input⟩],
      next_obs_id := db.next_obs_id + 1 }

/-- Descending-count order used by the signature query's
`ORDER BY COUNT(*) DESC`. -/
def countDesc (a b : String × Nat) : Prop := b.2 ≤ a.2

instance : DecidableRel countDesc := fun a b => Nat.decLe b.2 a.2

instance : IsTotal (String × Nat) countDesc :=
  ⟨fun a b => Nat.le_total b.2 a.2⟩

instance : IsTrans (String × Nat) countDesc :=
  ⟨fun _ _ _ h1 h2 => Nat.le_trans h2 h1⟩

/-- The `SELECT obs_type, COUNT(*) ... GROUP BY obs_type ORDER BY COUNT(*)
DESC` aggregation: one `(obs_type, count)` pair per distinct type, sorted by
count descending (ties in group order, which SQL leaves unspecified). -/
def sortedHistogram (types : List String) : List (String × Nat) :=
  List.insertionSort countDesc (types.dedup.map (fun t => (t, types.count t)))

/-- JSON string escaping for the signature payload (quote and backslash). -/
def jsonEscape (s : String) : String :=
  (s.toList.map (fun c =>
    if c == '\\' then "\\\\" else if c == '"' then "\\\"" else String.mk [c])).foldl
    (fun a b => a ++ b) ""

/-- One `(obs_type, count)` pair as the two-element JSON array `json.dumps`
produces for a tuple. -/
def pairJson (p : String × Nat) : String :=
  "[\"" ++ jsonEscape p.1 ++ "\", " ++ toString p.2 ++ "]"

/-- Comma-join as in a `json.dumps` array body. -/
def joinPairs : List (String × Nat) → String
  | [] => ""
  | [p] => pairJson p
  | p :: rest => pairJson p ++ ", " ++ joinPairs rest

/-- `json.dumps` of a list of `(str, int)` pairs, as used for signatures. -/
def sigJson (l : List (String × Nat)) : String :=
  "[" ++ joinPairs l ++ "]"

/-- Observation types of a session, in insertion order. -/
def sessionTypes (db : DB) (session_id : String) : List String :=
  (db.observations.filter (fun o => o.session_id == session_id)).map
    (fun o => o.obs_type)

/-- `handle_stop`: final transcript scan, then set `ended_at` and the
signature (the JSON histogram, `NULL` when the session has no observations)
on every `sessions` row with this id. -/
def handle_stop (db : DB) (session_id : String) (ts : Nat)
    (transcript : Option (List TLine)) : DB :=
  let db := (scan_transcript db session_id transcript ts).1
  let types := sessionTypes db session_id
  let signature := if types.isEmpty then none else some (sigJson (sortedHistogram types))
  { db with sessions := db.sessions.map (fun s =>
      if s.id == session_id then { s with ended_at := some ts, signature := signature }
      else s) }

/-- `main`: undecodable payloads and payloads whose `session_id` is absent or
falsy (the empty string) are discarded before the database is opened; other
events are dispatched to their handler, unknown event names fall through. -/
def main (home : String) (db : DB) (ts : Nat) (payload : Option Payload) : DB :=
  match payload with
  | none => db
  | some p =>
    match p.session_id with
    | none => db
    | some sid =>
      if sid = "" then db
      else
        match p.hook_event_name with
        | "SessionStart" => handle_session_start home db sid p.cwd p.source ts
        | "UserPromptSubmit" => handle_user_prompt home db sid p.cwd ts p.prompt
        | "PostToolUse" =>
          handle_post_tool_use home db sid p.cwd ts p.tool_name p.tool_input p.transcript
        | "Stop" => handle_stop db sid ts p.transcript
        | _ => db

end Extract

namespace Capture

/-- `classify_obs_type` from `capture.py` (ADR-002 Q4): lifecycle events get
fixed types; `Bash` is classified from the tool *response* (error marker ⇒
`command_error`); `tool_response` holds the response text, with absent or
non-string responses already collapsed to `""` as the source does. -/
def classify_obs_type (event : String) (tool_name : Option String)
    (tool_response : String) : String :=
  if event = "SessionStart" then "session_start"
  else if event = "Stop" then "session_end"
  else if event = "UserPromptSubmit" then "user_prompt"
  else
    match tool_name with
    | some "Bash" =>
      let resp := pyToLower tool_response
      if strContains resp "exit code" || strContains (pyTake resp 200) "error" then
        "command_error"
      else "command"
    | some "Read" => "file_read"
    | some "Write" => "file_write"
    | some "Edit" => "file_edit"
    | some "Grep" => "search"
    | some "Glob" => "search"
    | t =>
      let name := t.getD ""
      if name ≠ "" && (strContains (pyToLower name) "mcp" || strContains name "__") then
        "mcp_call"
      else if name ≠ "" then "tool_" ++ name
      else pyToLower event

end Capture

namespace Extract

/-- Number of agent prompt rows of a session carrying a given content. -/
def agentCount (db : DB) (session_id content : String) : Nat :=
  db.prompts.countP (isAgentRow session_id content)

/-- Number of `sessions` rows with a given id. -/
def sessionCount (db : DB) (session_id : String) : Nat :=
  db.sessions.countP (fun s => s.id == session_id)

/-- Number of `_cursor` rows keyed by a session. -/
def cursorRows (db : DB) (session_id : String) : Nat :=
  db.cursor.countP (fun c => c.1 == session_id)

/-- Content invariant of stored prompt rows: never empty, and user-sourced
rows never begin with the system-reminder marker. -/
def PromptContentOK (p : PromptRow) : Prop :=
  ¬ p.content = "" ∧
  (p.source = "user" → pyStartsWith p.content "<system-reminder>" = false)

/-- A fresh, empty database (rowid counters at 1, as SQLite assigns). -/
def db0 : DB := ⟨[], [], [], [], 1, 1⟩

/-- A transcript line holding exactly one thinking block. -/
def thinkLine (t : String) : TLine := TLine.assistant [TBlock.thinking t]

/-- Scenario fixture: a session row for id `s` already exists. -/
def dbD0 : DB := ⟨[⟨"s", "nmem", 0, none, none⟩], [], [], [], 1, 1⟩

/-- First PostToolUse: the transcript shows one reasoning segment. -/
def dbD1 : DB :=
  handle_post_tool_use "/root" dbD0 "s" "/root/nmem" 1 "Bash" { command := some "ls" }
    (some [thinkLine "because reasons"])

/-- Second PostToolUse: the identical reasoning text appears again in the
newly appended transcript region. -/
def dbD2 : DB :=
  handle_post_tool_use "/root" dbD1 "s" "/root/nmem" 2 "Bash" { command := some "pwd" }
    (some [thinkLine "because reasons", thinkLine "because reasons"])

/-- Cursor fixture: first scan sees a three-line transcript. -/
def dbC2b : DB := (scan_transcript db0 "s" (some [TLine.skip, TLine.skip, TLine.skip]) 0).1

/-- Cursor fixture: second scan sees the transcript shrunk to one line. -/
def dbC2c : DB := (scan_transcript dbC2b "s" (some [TLine.skip]) 1).1

/-- Stop fixture: a session started normally. -/
def dbC3a : DB := handle_session_start "/root" db0 "s" "/root/nmem" "startup" 0

/-- First Stop at time 10. -/
def dbC3b : DB := handle_stop dbC3a "s" 10 none

/-- Second Stop for the same session at time 20. -/
def dbC3c : DB := handle_stop dbC3b "s" 20 none

/-- SessionStart fixture: session `s` already has a user prompt (id 5). -/
def dbC4 : DB := ⟨[⟨"s", "nmem", 0, none, none⟩], [⟨5, "s", 2, "user", "hello"⟩], [], [], 6, 1⟩

/-- Transcript-scan fixture: the agent reasoning text begins with the
system-reminder marker. -/
def dbC7 : DB :=
  (scan_transcript dbD0 "s" (some [thinkLine "<system-reminder>foo"]) 3).1

/-- Signature fixture: three observations of types file_read, file_read,
command. -/
def dbE : DB :=
  ⟨[⟨"s", "nmem", 0, none, none⟩], [],
   [⟨1, "s", none, 1, "file_read", "PostToolUse", some "Read", some "/a", "/a"⟩,
    ⟨2, "s", none, 2, "file_read", "PostToolUse", some "Read", some "/a", "/a"⟩,
    ⟨3, "s", none, 3, "command", "PostToolUse", some "Bash", none, "ls"⟩],
   [], 1, 4⟩

/-- Stop applied to the signature fixture. -/
def dbE2 : DB := handle_stop dbE "s" 9 none

end Extract

namespace Extract

/-- Fold invariance: a predicate preserved by each step is preserved by the
whole fold. -/
theorem foldl_inv {α β : Type} {f : β → α → β} {P : β → Prop}
    (step : ∀ b a, P b → P (f b a)) :
    ∀ (l : List α) (b : β), P b → P (l.foldl f b)
  | [], _, hb => hb
  | a :: l, b, hb => foldl_inv step l (f b a) (step b a hb)

/-- A scanner step only touches the prompts table and its rowid counter. -/
theorem scanBlock_frame (session_id : String) (ts : Nat) (acc : DB × Option Nat)
    (b : TBlock) :
    (scanBlock session_id ts acc b).1.sessions = acc.1.sessions ∧
    (scanBlock session_id ts acc b).1.observations = acc.1.observations ∧
    (scanBlock session_id ts acc b).1.cursor = acc.1.cursor ∧
    (scanBlock session_id ts acc b).1.next_obs_id = acc.1.next_obs_id := by
  cases b with
  | other => exact ⟨rfl, rfl, rfl, rfl⟩
  | thinking raw =>
    simp only [scanBlock]
    split
    · exact ⟨rfl, rfl, rfl, rfl⟩
    · split <;> exact ⟨rfl, rfl, rfl, rfl⟩

/-- The scanner fold only touches the prompts table and its rowid counter. -/
theorem scanAcc_frame (session_id : String) (ts : Nat) (init : DB × Option Nat)
    (lines : List TLine) :
    (lines.foldl (scanLine session_id ts) init).1.sessions = init.1.sessions ∧
    (lines.foldl (scanLine session_id ts) init).1.observations = init.1.observations ∧
    (lines.foldl (scanLine session_id ts) init).1.cursor = init.1.cursor ∧
    (lines.foldl (scanLine session_id ts) init).1.next_obs_id = init.1.next_obs_id := by
  refine foldl_inv (P := fun x : DB × Option Nat =>
    x.1.sessions = init.1.sessions ∧ x.1.observations = init.1.observations ∧
    x.1.cursor = init.1.cursor ∧ x.1.next_obs_id = init.1.next_obs_id)
    ?_ lines init ⟨rfl, rfl, rfl, rfl⟩
  intro b a hb
  cases a with
  | skip => exact hb
  | nonAssistant => exact hb
  | assistant blocks =>
    refine foldl_inv (P := fun x : DB × Option Nat =>
      x.1.sessions = init.1.sessions ∧ x.1.observations = init.1.observations ∧
      x.1.cursor = init.1.cursor ∧ x.1.next_obs_id = init.1.next_obs_id)
      ?_ blocks b hb
    intro b2 a2 hb2
    have h := scanBlock_frame session_id ts b2 a2
    exact ⟨h.1.trans hb2.1, h.2.1.trans hb2.2.1, h.2.2.1.trans hb2.2.2.1,
           h.2.2.2.trans hb2.2.2.2⟩

/-- `scan_transcript` leaves sessions, observations and the observation
counter unchanged; its only table writes are prompt inserts and the final
cursor upsert. -/
theorem scan_frame (db : DB) (session_id : String) (tr : Option (List TLine))
    (ts : Nat) :
    (scan_transcript db session_id tr ts).1.sessions = db.sessions ∧
    (scan_transcript db session_id tr ts).1.observations = db.observations ∧
    (scan_transcript db session_id tr ts).1.next_obs_id = db.next_obs_id ∧
    (scan_transcript db session_id tr ts).1.cursor =
      (match tr with
       | none => db.cursor
       | some lines => cursorUpsert db.cursor session_id
           (if lines.isEmpty then getCursor db session_id else lines.length)) := by
  cases tr with
  | none => exact ⟨rfl, rfl, rfl, rfl⟩
  | some lines =>
    have h := scanAcc_frame session_id ts (db, get_current_prompt_id db session_id)
      (lines.drop (getCursor db session_id))
    simp only [scan_transcript]
    exact ⟨h.1, h.2.1, h.2.2.2, by rw [h.2.2.1]⟩

end Extract

namespace Extract

/-- After an upsert, the cursor lookup for the session returns the new
value. -/
theorem find?_cursorUpsert (cs : List (String × Nat)) (session_id : String) (n : Nat) :
    (cursorUpsert cs session_id n).find? (fun c => c.1 == session_id) =
      some (session_id, n) := by
  unfold cursorUpsert
  rw [List.find?_append]
  have h1 : (cs.filter (fun c => !(c.1 == session_id))).find?
      (fun c => c.1 == session_id) = none := by
    rw [List.find?_eq_none]
    intro x hx
    have h2 := (List.mem_filter.mp hx).2
    simp only [Bool.not_eq_eq_eq_not, Bool.not_true] at h2
    simp [h2]
  rw [h1]
  simp

/-- The stored cursor after a scan of an available transcript. -/
theorem getCursor_scan (db : DB) (session_id : String) (lines : List TLine) (ts : Nat) :
    getCursor ((scan_transcript db session_id (some lines) ts).1) session_id =
      if lines.isEmpty then getCursor db session_id else lines.length := by
  have h := (scan_frame db session_id (some lines) ts).2.2.2
  simp only [getCursor, h, find?_cursorUpsert]

/-- An upsert leaves exactly one cursor row for the session. -/
theorem cursorRows_upsert_self (cs : List (String × Nat)) (session_id : String) (n : Nat) :
    (cursorUpsert cs session_id n).countP (fun c => c.1 == session_id) = 1 := by
  unfold cursorUpsert
  rw [List.countP_append]
  have h0 : (cs.filter (fun c => !(c.1 == session_id))).countP
      (fun c => c.1 == session_id) = 0 := by
    rw [List.countP_eq_zero]
    intro a ha
    have h2 := (List.mem_filter.mp ha).2
    simp only [Bool.not_eq_eq_eq_not, Bool.not_true] at h2
    simp [h2]
  rw [h0]
  simp

/-- An upsert does not change the cursor rows of other sessions. -/
theorem cursorRows_upsert_other (cs : List (String × Nat)) (session_id s : String)
    (n : Nat) (h : ¬ s = session_id) :
    (cursorUpsert cs session_id n).countP (fun c => c.1 == s) =
      cs.countP (fun c => c.1 == s) := by
  unfold cursorUpsert
  rw [List.countP_append, List.countP_filter]
  have hfun : (fun a : String × Nat => (a.1 == s) && !(a.1 == session_id)) =
      fun a : String × Nat => a.1 == s := by
    funext a
    by_cases ha : a.1 = s
    · subst ha
      have : (a.1 == session_id) = false := by
        simp only [beq_eq_false_iff_ne, ne_eq]
        exact fun hh => h hh
      simp [this]
    · have : (a.1 == s) = false := by simpa using ha
      simp [this]
  rw [hfun]
  have hone : ([(session_id, n)].countP (fun c : String × Nat => c.1 == s)) = 0 := by
    have : (session_id == s) = false := by
      simp only [beq_eq_false_iff_ne, ne_eq]
      exact fun hh => h hh.symm
    simp [List.countP_cons, this]
  rw [hone]
  simp

/-- `ensure_session` only ever appends to the sessions table. -/
theorem ensure_frame (home : String) (db : DB) (session_id cwd : String) (ts : Nat) :
    (ensure_session home db session_id cwd ts).prompts = db.prompts ∧
    (ensure_session home db session_id cwd ts).observations = db.observations ∧
    (ensure_session home db session_id cwd ts).cursor = db.cursor ∧
    (ensure_session home db session_id cwd ts).next_prompt_id = db.next_prompt_id ∧
    (ensure_session home db session_id cwd ts).next_obs_id = db.next_obs_id := by
  unfold ensure_session
  split <;> exact ⟨rfl, rfl, rfl, rfl, rfl⟩

/-- Existing session rows survive `ensure_session` untouched. -/
theorem ensure_mem (home : String) (db : DB) (session_id cwd : String) (ts : Nat) :
    ∀ s ∈ db.sessions, s ∈ (ensure_session home db session_id cwd ts).sessions := by
  unfold ensure_session
  split
  · exact fun s hs => hs
  · exact fun s hs => List.mem_append_left _ hs

/-- `ensure_session` leaves exactly one row for the session when at most one
existed before. -/
theorem ensure_count (home : String) (db : DB) (session_id cwd : String) (ts : Nat)
    (h : sessionCount db session_id ≤ 1) :
    sessionCount (ensure_session home db session_id cwd ts) session_id = 1 := by
  unfold sessionCount at h ⊢
  unfold ensure_session
  split
  · rename_i hany
    have h1 : 0 < db.sessions.countP (fun s => s.id == session_id) := by
      rw [List.countP_pos_iff]
      obtain ⟨x, hx, hpx⟩ := List.any_eq_true.mp hany
      exact ⟨x, hx, hpx⟩
    omega
  · rename_i hany
    have h0 : db.sessions.countP (fun s => s.id == session_id) = 0 := by
      rw [List.countP_eq_zero]
      intro a ha hpa
      apply hany
      rw [List.any_eq_true]
      exact ⟨a, ha, hpa⟩
    rw [List.countP_append, h0]
    simp

/-- The current prompt id only depends on the prompts table. -/
theorem gcpi_congr {db db2 : DB} (h : db.prompts = db2.prompts) (session_id : String) :
    get_current_prompt_id db session_id = get_current_prompt_id db2 session_id := by
  unfold get_current_prompt_id
  rw [h]

end Extract

/-- Taking a positive number of characters from a non-empty string is
non-empty. -/
theorem pyTake_ne_empty {s : String} (n : Nat) (hs : ¬ s = "") (hn : 0 < n) :
    ¬ pyTake s n = "" := by
  intro h
  apply hs
  have hd : s.toList.take n = [] := congrArg String.toList h
  rcases List.take_eq_nil_iff.mp hd with h0 | hnil
  · omega
  · cases s with
    | mk data =>
      have : data = [] := hnil
      rw [this]

/-- A prefix of a truncation is a prefix of the whole. -/
theorem listStarts_take {m : List Char} : ∀ {l : List Char} {n : Nat},
    listStarts m (l.take n) = true → listStarts m l = true := by
  induction m with
  | nil => intro l n _; rfl
  | cons a as ih =>
    intro l n h
    cases l with
    | nil => rw [List.take_nil] at h; exact h
    | cons b bs =>
      cases n with
      | zero => simp [listStarts] at h
      | succ k =>
        rw [List.take_succ_cons] at h
        simp only [listStarts, Bool.and_eq_true] at h ⊢
        exact ⟨h.1, ih h.2⟩

/-- `startswith` transfers from a truncation back to the full string. -/
theorem pyStartsWith_take {s m : String} {n : Nat}
    (h : pyStartsWith (pyTake s n) m = true) : pyStartsWith s m = true :=
  listStarts_take h

namespace Extract

/-- A scanner step keeps every agent-reasoning content represented at most
once per session: the found branch inserts nothing, the not-found branch
inserts a content that the dedup query just established absent. -/
theorem agentCount_scanBlock_le (session_id : String) (ts : Nat)
    (acc : DB × Option Nat) (b : TBlock)
    (h : ∀ s c, agentCount acc.1 s c ≤ 1) :
    ∀ s c, agentCount (scanBlock session_id ts acc b).1 s c ≤ 1 := by
  cases b with
  | other => exact h
  | thinking raw =>
    simp only [scanBlock]
    split
    · exact h
    · cases hf : acc.1.prompts.find? (isAgentRow session_id (pyTake (pyStrip raw) 2000)) with
      | some p => simp only [hf]; exact h
      | none =>
        simp only [hf]
        intro s c
        have hzero : ∀ x ∈ acc.1.prompts,
            ¬ isAgentRow session_id (pyTake (pyStrip raw) 2000) x = true :=
          List.find?_eq_none.mp hf
        unfold agentCount at h ⊢
        dsimp only
        rw [List.countP_append]
        by_cases hrow : isAgentRow s c
            ⟨acc.1.next_prompt_id, session_id, ts, "agent", pyTake (pyStrip raw) 2000⟩ = true
        · have hs : session_id = s ∧ pyTake (pyStrip raw) 2000 = c := by
            simp only [isAgentRow, Bool.and_eq_true, beq_iff_eq] at hrow
            exact ⟨hrow.1.1, hrow.2⟩
          obtain ⟨hs1, hs2⟩ := hs
          have h0 : acc.1.prompts.countP (isAgentRow s c) = 0 := by
            rw [List.countP_eq_zero]
            intro a ha
            rw [← hs1, ← hs2]
            exact hzero a ha
          rw [h0]
          simp [hrow]
        · have h1 : List.countP (isAgentRow s c)
              [(⟨acc.1.next_prompt_id, session_id, ts, "agent",
                 pyTake (pyStrip raw) 2000⟩ : PromptRow)] = 0 := by
            simp [List.countP_cons, hrow]
          rw [h1]
          simpa using h s c

/-- Line-level version of the dedup preservation. -/
theorem agentCount_scanLine_le (session_id : String) (ts : Nat)
    (acc : DB × Option Nat) (l : TLine)
    (h : ∀ s c, agentCount acc.1 s c ≤ 1) :
    ∀ s c, agentCount (scanLine session_id ts acc l).1 s c ≤ 1 := by
  cases l with
  | skip => exact h
  | nonAssistant => exact h
  | assistant blocks =>
    exact foldl_inv (P := fun x : DB × Option Nat => ∀ s c, agentCount x.1 s c ≤ 1)
      (fun b a hb => agentCount_scanBlock_le session_id ts b a hb) blocks acc h

/-- A whole transcript scan preserves the at-most-one-agent-row-per-content
invariant. -/
theorem agentCount_scan_le (db : DB) (session_id : String)
    (tr : Option (List TLine)) (ts : Nat)
    (h : ∀ s c, agentCount db s c ≤ 1) :
    ∀ s c, agentCount (scan_transcript db session_id tr ts).1 s c ≤ 1 := by
  cases tr with
  | none => exact h
  | some lines =>
    have hfold := foldl_inv (P := fun x : DB × Option Nat => ∀ s c, agentCount x.1 s c ≤ 1)
      (fun b a hb => agentCount_scanLine_le session_id ts b a hb)
      (lines.drop (getCursor db session_id)) (db, get_current_prompt_id db session_id) h
    intro s c
    exact hfold s c

/-- A scanner step preserves the prompt-content invariant: inserted agent
rows are non-empty truncations of non-blank reasoning. -/
theorem promptOK_scanBlock (session_id : String) (ts : Nat)
    (acc : DB × Option Nat) (b : TBlock)
    (h : ∀ p ∈ acc.1.prompts, PromptContentOK p) :
    ∀ p ∈ (scanBlock session_id ts acc b).1.prompts, PromptContentOK p := by
  cases b with
  | other => exact h
  | thinking raw =>
    simp only [scanBlock]
    split
    · exact h
    · rename_i ht
      cases hf : acc.1.prompts.find? (isAgentRow session_id (pyTake (pyStrip raw) 2000)) with
      | some p => simp only [hf]; exact h
      | none =>
        simp only [hf]
        intro p hp
        rcases List.mem_append.mp hp with hold | hnew
        · exact h p hold
        · have hrow := List.mem_singleton.mp hnew
          subst hrow
          refine ⟨pyTake_ne_empty 2000 ht (by omega), ?_⟩
          intro hsrc
          simp at hsrc

/-- Line-level version of the prompt-content preservation. -/
theorem promptOK_scanLine (session_id : String) (ts : Nat)
    (acc : DB × Option Nat) (l : TLine)
    (h : ∀ p ∈ acc.1.prompts, PromptContentOK p) :
    ∀ p ∈ (scanLine session_id ts acc l).1.prompts, PromptContentOK p := by
  cases l with
  | skip => exact h
  | nonAssistant => exact h
  | assistant blocks =>
    exact foldl_inv (P := fun x : DB × Option Nat => ∀ p ∈ x.1.prompts, PromptContentOK p)
      (fun b a hb => promptOK_scanBlock session_id ts b a hb) blocks acc h

/-- A whole transcript scan preserves the prompt-content invariant. -/
theorem promptOK_scan (db : DB) (session_id : String) (tr : Option (List TLine))
    (ts : Nat) (h : ∀ p ∈ db.prompts, PromptContentOK p) :
    ∀ p ∈ (scan_transcript db session_id tr ts).1.prompts, PromptContentOK p := by
  cases tr with
  | none => exact h
  | some lines =>
    have hfold := foldl_inv (P := fun x : DB × Option Nat => ∀ p ∈ x.1.prompts, PromptContentOK p)
      (fun b a hb => promptOK_scanLine session_id ts b a hb)
      (lines.drop (getCursor db session_id)) (db, get_current_prompt_id db session_id) h
    intro p hp
    exact hfold p hp

end Extract

namespace Extract

/-- The observation types of a session are untouched by a transcript scan. -/
theorem sessionTypes_scan (db : DB) (session_id : String) (tr : Option (List TLine))
    (ts : Nat) :
    sessionTypes ((scan_transcript db session_id tr ts).1) session_id =
      sessionTypes db session_id := by
  unfold sessionTypes
  rw [(scan_frame db session_id tr ts).2.1]

/-- `handle_stop` rewrites exactly the session rows matching the id, setting
`ended_at` to the Stop timestamp and the signature to the sorted histogram
of the session's observation types (none when there are none). -/
theorem handle_stop_sessions_eq (db : DB) (session_id : String) (ts : Nat)
    (tr : Option (List TLine)) :
    (handle_stop db session_id ts tr).sessions =
      db.sessions.map (fun s =>
        if s.id == session_id then
          { s with ended_at := some ts,
                   signature :=
                     if (sessionTypes db session_id).isEmpty then none
                     else some (sigJson (sortedHistogram (sessionTypes db session_id))) }
        else s) := by
  simp only [handle_stop]
  rw [(scan_frame db session_id tr ts).1, sessionTypes_scan]

/-- `handle_stop` leaves the prompts table exactly as the final scan left
it. -/
theorem handle_stop_prompts (db : DB) (session_id : String) (ts : Nat)
    (tr : Option (List TLine)) :
    (handle_stop db session_id ts tr).prompts =
      (scan_transcript db session_id tr ts).1.prompts := rfl

/-- Sessions with a different id survive a Stop untouched. -/
theorem handle_stop_mem (db : DB) (session_id : String) (ts : Nat)
    (tr : Option (List TLine)) :
    ∀ s ∈ db.sessions, ¬ s.id = session_id →
      s ∈ (handle_stop db session_id ts tr).sessions := by
  intro s hs hne
  rw [handle_stop_sessions_eq]
  refine List.mem_map.mpr ⟨s, hs, ?_⟩
  have hb : (s.id == session_id) = false := by simpa using hne
  simp [hb]

/-- Every row matching the Stop's session id carries the Stop timestamp and
the histogram signature afterwards. -/
theorem handle_stop_fields (db : DB) (session_id : String) (ts : Nat)
    (tr : Option (List TLine)) :
    ∀ s ∈ (handle_stop db session_id ts tr).sessions, s.id = session_id →
      s.ended_at = some ts ∧
      s.signature = (if (sessionTypes db session_id).isEmpty then none
                     else some (sigJson (sortedHistogram (sessionTypes db session_id)))) := by
  intro s hs hid
  rw [handle_stop_sessions_eq] at hs
  rcases List.mem_map.mp hs with ⟨x, hx, hfx⟩
  by_cases hxid : (x.id == session_id) = true
  · rw [if_pos hxid] at hfx
    cases hfx
    exact ⟨rfl, rfl⟩
  · rw [if_neg hxid] at hfx
    cases hfx
    exact absurd (by simpa using hid) hxid

/-- A Stop does not add or remove session rows of any id. -/
theorem sessionCount_stop (db : DB) (session_id s2 : String) (ts : Nat)
    (tr : Option (List TLine)) :
    sessionCount (handle_stop db session_id ts tr) s2 = sessionCount db s2 := by
  unfold sessionCount
  rw [handle_stop_sessions_eq, List.countP_map]
  congr 1
  funext s
  by_cases hid : (s.id == session_id) = true
  · simp [Function.comp, hid]
  · simp [Function.comp, hid]

/-- Membership in the sorted histogram characterizes the type counts. -/
theorem mem_sortedHistogram (types : List String) (t : String) (n : Nat) :
    (t, n) ∈ sortedHistogram types ↔ t ∈ types ∧ n = types.count t := by
  unfold sortedHistogram
  rw [List.mem_insertionSort]
  constructor
  · intro hm
    rcases List.mem_map.mp hm with ⟨a, ha, heq⟩
    obtain ⟨h1, h2⟩ := (Prod.mk.injEq _ _ _ _).mp heq
    constructor
    · rw [← h1]; exact List.mem_dedup.mp ha
    · rw [← h2, h1]
  · rintro ⟨ht, rfl⟩
    exact List.mem_map.mpr ⟨t, List.mem_dedup.mpr ht, rfl⟩

/-- The signature pair list is sorted by descending count. -/
theorem sorted_sortedHistogram (types : List String) :
    List.Sorted countDesc (sortedHistogram types) :=
  List.sorted_insertionSort countDesc _

/-- `handle_session_start` never writes prompts or the cursor, and its
session rows are those `ensure_session` produced. -/
theorem session_start_tables (home : String) (db : DB) (session_id cwd source : String)
    (ts : Nat) :
    (handle_session_start home db session_id cwd source ts).prompts = db.prompts ∧
    (handle_session_start home db session_id cwd source ts).sessions =
      (ensure_session home db session_id cwd ts).sessions ∧
    (handle_session_start home db session_id cwd source ts).cursor = db.cursor := by
  unfold handle_session_start
  split
  · exact ⟨(ensure_frame home db session_id cwd ts).1, rfl,
      (ensure_frame home db session_id cwd ts).2.2.1⟩
  · exact ⟨(ensure_frame home db session_id cwd ts).1, rfl,
      (ensure_frame home db session_id cwd ts).2.2.1⟩

/-- `handle_post_tool_use` ensures the session, scans, and appends exactly
one observation row carrying the scan's current prompt id. -/
theorem post_tool_use_tables (home : String) (db : DB) (session_id cwd : String)
    (ts : Nat) (tool_name : String) (ti : ToolInput) (tr : Option (List TLine)) :
    (handle_post_tool_use home db session_id cwd ts tool_name ti tr).sessions =
      (ensure_session home db session_id cwd ts).sessions ∧
    (handle_post_tool_use home db session_id cwd ts tool_name ti tr).prompts =
      (scan_transcript (ensure_session home db session_id cwd ts) session_id tr ts).1.prompts ∧
    (handle_post_tool_use home db session_id cwd ts tool_name ti tr).observations =
      db.observations ++
        [⟨db.next_obs_id, session_id,
          (scan_transcript (ensure_session home db session_id cwd ts) session_id tr ts).2, ts,
          classify_tool tool_name, "PostToolUse", some tool_name,
          extract_file_path tool_name ti, extract_content tool_name ti⟩] := by
  refine ⟨(scan_frame (ensure_session home db session_id cwd ts) session_id tr ts).1, rfl, ?_⟩
  show (scan_transcript (ensure_session home db session_id cwd ts) session_id tr ts).1.observations ++
      [⟨(scan_transcript (ensure_session home db session_id cwd ts) session_id tr ts).1.next_obs_id,
        session_id,
        (scan_transcript (ensure_session home db session_id cwd ts) session_id tr ts).2, ts,
        classify_tool tool_name, "PostToolUse", some tool_name,
        extract_file_path tool_name ti, extract_content tool_name ti⟩] = _
  rw [(scan_frame (ensure_session home db session_id cwd ts) session_id tr ts).2.1,
      (ensure_frame home db session_id cwd ts).2.1,
      (scan_frame (ensure_session home db session_id cwd ts) session_id tr ts).2.2.1,
      (ensure_frame home db session_id cwd ts).2.2.2.2]

/-- `handle_user_prompt`: discarded prompts leave the store untouched;
accepted prompts append exactly one user row. -/
theorem user_prompt_tables (home : String) (db : DB) (session_id cwd : String)
    (ts : Nat) (prompt : String) :
    ((prompt = "" ∨ pyStartsWith prompt "<system-reminder>" = true) →
       handle_user_prompt home db session_id cwd ts prompt = db) ∧
    (¬ prompt = "" → pyStartsWith prompt "<system-reminder>" = false →
       (handle_user_prompt home db session_id cwd ts prompt).prompts =
         db.prompts ++ [⟨db.next_prompt_id, session_id, ts, "user", pyTake prompt 500⟩] ∧
       (handle_user_prompt home db session_id cwd ts prompt).sessions =
         (ensure_session home db session_id cwd ts).sessions) := by
  constructor
  · intro h
    unfold handle_user_prompt
    rcases h with h | h
    · simp [h]
    · simp [h]
  · intro h1 h2
    unfold handle_user_prompt
    rw [if_neg (by simp [h1, h2])]
    constructor
    · show (ensure_session home db session_id cwd ts).prompts ++
          [⟨(ensure_session home db session_id cwd ts).next_prompt_id, session_id, ts,
            "user", pyTake prompt 500⟩] = _
      rw [(ensure_frame home db session_id cwd ts).1,
          (ensure_frame home db session_id cwd ts).2.2.2.1]
    · rfl

end Extract

namespace Extract

/-- Lines the scanner ignores can be dropped from a region without changing
the fold's result: malformed lines are skipped, never fatal. -/
theorem foldl_scanLine_filter (session_id : String) (ts : Nat) :
    ∀ (lines : List TLine) (acc : DB × Option Nat),
      (lines.filter (fun l => !l.isSkip)).foldl (scanLine session_id ts) acc =
        lines.foldl (scanLine session_id ts) acc := by
  intro lines
  induction lines with
  | nil => intro acc; rfl
  | cons l rest ih =>
    intro acc
    cases l with
    | skip =>
      rw [List.filter_cons_of_neg (by decide), List.foldl_cons]
      exact ih acc
    | nonAssistant =>
      rw [List.filter_cons_of_pos (by decide), List.foldl_cons, List.foldl_cons]
      exact ih (scanLine session_id ts acc TLine.nonAssistant)
    | assistant blocks =>
      rw [List.filter_cons_of_pos (by rfl), List.foldl_cons, List.foldl_cons]
      exact ih (scanLine session_id ts acc (TLine.assistant blocks))

/-- C1: re-scanning the same log region inserts at most one agent Prompt row
per distinct truncated reasoning text and session (the dedup invariant is
preserved by consecutive scans), and two sequential PostToolUse events
bracketing identical reasoning yield exactly one new agent Prompt row whose
id is the `prompt_id` of both resulting Observations (scenario on
`dbD1`/`dbD2`). -/
theorem agent_reasoning_dedup (db : DB) (sid sid2 : String)
    (tr tr2 : Option (List TLine)) (ts ts2 : Nat)
    (h : ∀ s c, agentCount db s c ≤ 1) :
    (∀ s c,
      agentCount ((scan_transcript ((scan_transcript db sid tr ts).1) sid2 tr2 ts2).1) s c ≤ 1) ∧
    dbD2.prompts = [⟨1, "s", 1, "agent", "because reasons"⟩] ∧
    dbD1.observations.map (fun o => o.prompt_id) = [some 1] ∧
    dbD2.observations.map (fun o => o.prompt_id) = [some 1, some 1] := by
  refine ⟨?_, by decide, by decide, by decide⟩
  exact agentCount_scan_le _ sid2 tr2 ts2 (agentCount_scan_le db sid tr ts h)

/-- Witness for C1 at a concrete double scan. -/
theorem agent_reasoning_dedup_witness :
    agentCount ((scan_transcript ((scan_transcript dbD0 "s"
        (some [thinkLine "because reasons"]) 1).1) "s"
        (some [thinkLine "because reasons", thinkLine "because reasons"]) 2).1)
      "s" "because reasons" ≤ 1 :=
  (agent_reasoning_dedup dbD0 "s" "s" (some [thinkLine "because reasons"])
    (some [thinkLine "because reasons", thinkLine "because reasons"]) 1 2
    (fun _ _ => Nat.zero_le 1)).1 "s" "because reasons"

/-- C2 counterexample: the stored cursor decreases when the transcript
shrinks below the previous watermark (3 lines, then 1 line), and a scan with
a missing transcript upserts no cursor row at all. -/
theorem cursor_can_decrease :
    getCursor dbC2b "s" = 3 ∧ getCursor dbC2c "s" = 1 ∧
    cursorRows ((scan_transcript db0 "s" none 0).1) "s" = 0 := by decide

/-- C2 amended: for a scan of an available transcript whose line count is at
least the stored cursor, the cursor is non-decreasing and afterwards equals
the transcript's total line count (unchanged when the transcript has zero
lines); the scan upserts the single cursor row of the session and leaves
other sessions' cursor rows alone. -/
theorem cursor_monotone_after_scan (db : DB) (session_id : String) (lines : List TLine)
    (ts : Nat) (h : getCursor db session_id ≤ lines.length) :
    getCursor db session_id ≤
      getCursor ((scan_transcript db session_id (some lines) ts).1) session_id ∧
    (¬ lines = [] →
      getCursor ((scan_transcript db session_id (some lines) ts).1) session_id =
        lines.length) ∧
    (lines = [] →
      getCursor ((scan_transcript db session_id (some lines) ts).1) session_id =
        getCursor db session_id) ∧
    cursorRows ((scan_transcript db session_id (some lines) ts).1) session_id = 1 ∧
    (∀ s2, ¬ s2 = session_id →
      cursorRows ((scan_transcript db session_id (some lines) ts).1) s2 =
        cursorRows db s2) := by
  have hg := getCursor_scan db session_id lines ts
  have hc := (scan_frame db session_id (some lines) ts).2.2.2
  refine ⟨?_, ?_, ?_, ?_, ?_⟩
  · rw [hg]
    cases lines with
    | nil => simp
    | cons a l => simpa using h
  · intro hne
    rw [hg]
    have hE : lines.isEmpty = false := by
      cases hl : lines with
      | nil => exact absurd hl hne
      | cons a l => rfl
    simp [hE]
  · intro he
    subst he
    simpa using hg
  · unfold cursorRows
    rw [hc]
    exact cursorRows_upsert_self _ _ _
  · intro s2 hs2
    unfold cursorRows
    rw [hc]
    exact cursorRows_upsert_other _ _ _ _ hs2

/-- Witness for C2 at a concrete growing transcript. -/
theorem cursor_monotone_after_scan_witness :
    cursorRows ((scan_transcript db0 "s" (some [TLine.skip]) 0).1) "s" = 1 :=
  (cursor_monotone_after_scan db0 "s" [TLine.skip] 0 (by decide)).2.2.2.1

/-- C3 counterexample: a second Stop for the same session overwrites the
`ended_at` set by the first Stop (10 becomes 20). -/
theorem second_stop_revises_ended_at :
    dbC3b.sessions.map (fun s => s.ended_at) = [some 10] ∧
    dbC3c.sessions.map (fun s => s.ended_at) = [some 20] ∧
    ¬ dbC3c.sessions.map (fun s => s.ended_at) =
        dbC3b.sessions.map (fun s => s.ended_at) := by decide

/-- C3 amended: `ended_at` is written by every Stop event with that event's
timestamp (so a repeated Stop revises it); no other handler ever modifies an
existing Session row, so the value set by the latest Stop survives all later
SessionStart, UserPromptSubmit and PostToolUse events, and a later
SessionStart does not clear `ended_at`. -/
theorem ended_at_evolution :
    (∀ home db session_id cwd source ts, ∀ s ∈ DB.sessions db,
       s ∈ (handle_session_start home db session_id cwd source ts).sessions) ∧
    (∀ home db session_id cwd ts prompt, ∀ s ∈ DB.sessions db,
       s ∈ (handle_user_prompt home db session_id cwd ts prompt).sessions) ∧
    (∀ home db session_id cwd ts tool_name ti tr, ∀ s ∈ DB.sessions db,
       s ∈ (handle_post_tool_use home db session_id cwd ts tool_name ti tr).sessions) ∧
    (∀ db session_id ts tr, ∀ s ∈ DB.sessions db, ¬ SessionRow.id s = session_id →
       s ∈ (handle_stop db session_id ts tr).sessions) ∧
    (∀ db session_id ts tr, ∀ s ∈ (handle_stop db session_id ts tr).sessions,
       SessionRow.id s = session_id → SessionRow.ended_at s = some ts) := by
  refine ⟨?_, ?_, ?_, ?_, ?_⟩
  · intro home db sid cwd source ts s hs
    rw [(session_start_tables home db sid cwd source ts).2.1]
    exact ensure_mem home db sid cwd ts s hs
  · intro home db sid cwd ts prompt s hs
    unfold handle_user_prompt
    split
    · exact hs
    · exact ensure_mem home db sid cwd ts s hs
  · intro home db sid cwd ts tool_name ti tr s hs
    rw [(post_tool_use_tables home db sid cwd ts tool_name ti tr).1]
    exact ensure_mem home db sid cwd ts s hs
  · intro db sid ts tr s hs hne
    exact handle_stop_mem db sid ts tr s hs hne
  · intro db sid ts tr s hs hid
    exact (handle_stop_fields db sid ts tr s hs hid).1

/-- Witness for C3: the Stop at time 10 stamps the session row. -/
theorem ended_at_evolution_witness :
    SessionRow.ended_at ⟨"s", "nmem", 0, some 10, none⟩ = some 10 :=
  ended_at_evolution.2.2.2.2 dbC3a "s" 10 none ⟨"s", "nmem", 0, some 10, none⟩
    (by decide) (by decide)

end Extract

namespace Extract

/-- C4 counterexample: a SessionStart with source `resume` on a session that
already has a prompt links its marker Observation to that prompt (prompt_id
is `some 5`, not none). -/
theorem resume_marker_links_current_prompt :
    (handle_session_start "/root" dbC4 "s" "/w" "resume" 7).observations.map
      (fun o => (o.obs_type, o.prompt_id)) = [("session_resume", some 5)] := by decide

/-- C4 amended: for source resume/compact/clear the handler inserts exactly
one `session_<source>` Observation whose `prompt_id` is the session's current
prompt id (none only when the session has no prompts); source `startup`
inserts no Observation, and for a new session id creates exactly one Session
row with `ended_at = null`. -/
theorem session_start_effects (home : String) (db : DB) (session_id cwd source : String)
    (ts : Nat) :
    (source = "resume" ∨ source = "compact" ∨ source = "clear" →
      (handle_session_start home db session_id cwd source ts).observations =
        db.observations ++
          [⟨db.next_obs_id, session_id, get_current_prompt_id db session_id, ts,
            "session_" ++ source, "SessionStart", none, none, source⟩]) ∧
    (source = "startup" →
      (handle_session_start home db session_id cwd source ts).observations =
        db.observations) ∧
    (source = "startup" → (∀ s ∈ DB.sessions db, ¬ SessionRow.id s = session_id) →
      (handle_session_start home db session_id cwd source ts).sessions =
        db.sessions ++ [⟨session_id, derive_project home cwd, ts, none, none⟩]) := by
  refine ⟨?_, ?_, ?_⟩
  · intro hsrc
    unfold handle_session_start
    rw [if_pos (by rcases hsrc with h | h | h <;> simp [h])]
    show (ensure_session home db session_id cwd ts).observations ++
        [⟨(ensure_session home db session_id cwd ts).next_obs_id, session_id,
          get_current_prompt_id (ensure_session home db session_id cwd ts) session_id, ts,
          "session_" ++ source, "SessionStart", none, none, source⟩] = _
    rw [(ensure_frame home db session_id cwd ts).2.1,
        (ensure_frame home db session_id cwd ts).2.2.2.2,
        gcpi_congr (ensure_frame home db session_id cwd ts).1]
  · intro hsrc
    subst hsrc
    unfold handle_session_start
    rw [if_neg (by simp)]
    exact (ensure_frame home db session_id cwd ts).2.1
  · intro hsrc hnone
    subst hsrc
    unfold handle_session_start
    rw [if_neg (by simp)]
    show (ensure_session home db session_id cwd ts).sessions = _
    unfold ensure_session
    rw [if_neg ?hany]
    case hany =>
      intro hc
      obtain ⟨x, hx, hpx⟩ := List.any_eq_true.mp hc
      exact hnone x hx (by simpa using hpx)

/-- Witness for C4: resume on a session whose latest prompt has id 5. -/
theorem session_start_effects_witness :
    (handle_session_start "/root" dbC4 "s" "/w" "resume" 7).observations =
      dbC4.observations ++
        [⟨1, "s", some 5, 7, "session_resume", "SessionStart", none, none, "resume"⟩] := by
  have h := (session_start_effects "/root" dbC4 "s" "/w" "resume" 7).1 (Or.inl rfl)
  rw [h]
  decide

/-- C5: the capture classifier maps a Bash PostToolUse to `command`, or to
`command_error` exactly when the lowered response contains "exit code" or
its first 200 characters contain "error"; the Observation the extractor
stores for `tool_input` `command: c` has content `c` truncated to 500
characters, obs_type `command`, and no file_path. -/
theorem bash_classification (resp c : String) (home : String) (db : DB)
    (session_id cwd : String) (ts : Nat) (tr : Option (List TLine)) :
    Capture.classify_obs_type "PostToolUse" (some "Bash") resp =
      (if strContains (pyToLower resp) "exit code" ||
          strContains (pyTake (pyToLower resp) 200) "error"
       then "command_error" else "command") ∧
    ((handle_post_tool_use home db session_id cwd ts "Bash" { command := some c } tr).observations.getLast?).map
        (fun o => (o.obs_type, o.content, o.file_path)) =
      some ("command", pyTake c 500, none) := by
  constructor
  · simp [Capture.classify_obs_type]
  · rw [(post_tool_use_tables home db session_id cwd ts "Bash" { command := some c } tr).2.2,
        List.getLast?_concat]
    rfl

/-- C6 counterexample: a Stop event for an unknown session id creates no
Session row, and a UserPromptSubmit whose prompt is discarded (empty) also
creates none. -/
theorem stop_does_not_create_session :
    sessionCount (handle_stop db0 "s1" 5 none) "s1" = 0 ∧
    sessionCount (handle_user_prompt "/root" db0 "s1" "/w" 5 "") "s1" = 0 := by decide

/-- C6 amended: SessionStart, PostToolUse and non-discarded UserPromptSubmit
leave exactly one Session row for the referenced id (created lazily if
absent); Stop never creates the row, and no handler rewrites existing rows
(in particular `started_at` is never overwritten). -/
theorem session_row_uniqueness (home : String) (db : DB)
    (session_id cwd source tool_name prompt : String) (ts : Nat) (ti : ToolInput)
    (tr : Option (List TLine)) (h : sessionCount db session_id ≤ 1) :
    sessionCount (handle_session_start home db session_id cwd source ts) session_id = 1 ∧
    sessionCount (handle_post_tool_use home db session_id cwd ts tool_name ti tr) session_id = 1 ∧
    (¬ prompt = "" → pyStartsWith prompt "<system-reminder>" = false →
      sessionCount (handle_user_prompt home db session_id cwd ts prompt) session_id = 1) ∧
    sessionCount (handle_stop db session_id ts tr) session_id = sessionCount db session_id ∧
    (∀ s ∈ DB.sessions db,
      s ∈ (handle_session_start home db session_id cwd source ts).sessions) := by
  refine ⟨?_, ?_, ?_, sessionCount_stop db session_id session_id ts tr, ?_⟩
  · unfold sessionCount
    rw [(session_start_tables home db session_id cwd source ts).2.1]
    exact ensure_count home db session_id cwd ts h
  · unfold sessionCount
    rw [(post_tool_use_tables home db session_id cwd ts tool_name ti tr).1]
    exact ensure_count home db session_id cwd ts h
  · intro h1 h2
    unfold sessionCount
    rw [((user_prompt_tables home db session_id cwd ts prompt).2 h1 h2).2]
    exact ensure_count home db session_id cwd ts h
  · intro s hs
    rw [(session_start_tables home db session_id cwd source ts).2.1]
    exact ensure_mem home db session_id cwd ts s hs

/-- Witness for C6: a fresh id gets exactly one row on SessionStart. -/
theorem session_row_uniqueness_witness :
    sessionCount (handle_session_start "/root" db0 "s" "/w" "startup" 1) "s" = 1 :=
  (session_row_uniqueness "/root" db0 "s" "/w" "startup" "Bash" "hi" 1 {} none
    (by decide)).1

/-- C7 counterexample: a reasoning block beginning with the system-reminder
marker is stored verbatim as an agent Prompt row (the scan applies no marker
filter to agent reasoning). -/
theorem agent_prompt_with_marker :
    dbC7.prompts.map (fun p => (p.source, pyStartsWith p.content "<system-reminder>")) =
      [("agent", true)] := by decide

/-- C7 amended: prompt contents are never empty, and user-sourced rows never
begin with the system-reminder marker (such submissions are discarded
silently, inserting zero rows); only agent rows may carry the marker. -/
theorem prompt_content_invariant (home : String) (db : DB)
    (session_id cwd source tool_name prompt : String) (ts : Nat) (ti : ToolInput)
    (tr : Option (List TLine)) (h : ∀ p ∈ DB.prompts db, PromptContentOK p) :
    (∀ p ∈ (handle_session_start home db session_id cwd source ts).prompts,
      PromptContentOK p) ∧
    (∀ p ∈ (handle_user_prompt home db session_id cwd ts prompt).prompts,
      PromptContentOK p) ∧
    (∀ p ∈ (handle_post_tool_use home db session_id cwd ts tool_name ti tr).prompts,
      PromptContentOK p) ∧
    (∀ p ∈ (handle_stop db session_id ts tr).prompts, PromptContentOK p) ∧
    ((prompt = "" ∨ pyStartsWith prompt "<system-reminder>" = true) →
      (handle_user_prompt home db session_id cwd ts prompt).prompts = db.prompts) := by
  refine ⟨?_, ?_, ?_, ?_, ?_⟩
  · intro p hp
    rw [(session_start_tables home db session_id cwd source ts).1] at hp
    exact h p hp
  · intro p hp
    by_cases hc : prompt = "" ∨ pyStartsWith prompt "<system-reminder>" = true
    · rw [(user_prompt_tables home db session_id cwd ts prompt).1 hc] at hp
      exact h p hp
    · push_neg at hc
      obtain ⟨h1, h2⟩ := hc
      have h2b : pyStartsWith prompt "<system-reminder>" = false := by
        cases hval : pyStartsWith prompt "<system-reminder>" with
        | true => exact absurd hval h2
        | false => rfl
      rw [((user_prompt_tables home db session_id cwd ts prompt).2 h1 h2b).1] at hp
      rcases List.mem_append.mp hp with hold | hnew
      · exact h p hold
      · have hr := List.mem_singleton.mp hnew
        subst hr
        refine ⟨pyTake_ne_empty 500 h1 (by omega), ?_⟩
        intro _
        cases hval : pyStartsWith (pyTake prompt 500) "<system-reminder>" with
        | false => rfl
        | true => exact absurd (pyStartsWith_take hval) (by simp [h2b])
  · intro p hp
    rw [(post_tool_use_tables home db session_id cwd ts tool_name ti tr).2.1] at hp
    refine promptOK_scan _ session_id tr ts ?_ p hp
    intro q hq
    rw [(ensure_frame home db session_id cwd ts).1] at hq
    exact h q hq
  · intro p hp
    rw [handle_stop_prompts db session_id ts tr] at hp
    exact promptOK_scan db session_id tr ts h p hp
  · intro hc
    rw [(user_prompt_tables home db session_id cwd ts prompt).1 hc]

/-- Witness for C7: a marker-prefixed user prompt inserts zero rows. -/
theorem prompt_content_invariant_witness :
    (handle_user_prompt "/root" db0 "s" "/w" 1 "<system-reminder>foo").prompts =
      db0.prompts :=
  (prompt_content_invariant "/root" db0 "s" "/w" "startup" "Bash"
    "<system-reminder>foo" 1 {} none (fun p hp => nomatch hp)).2.2.2.2
    (Or.inr (by decide))

end Extract

namespace Extract

/-- C8: Stop stores, on every session row with the Stop's id, the JSON
encoding of the `(obs_type, count)` pairs of that session's observations,
one pair per distinct type with its exact count, sorted by count descending;
a session with zero observations gets a null signature; concretely, the
fixture with observations of types file_read, file_read, command yields the
signature `[["file_read", 2], ["command", 1]]` (scenario on `dbE2`). -/
theorem stop_signature_histogram (db : DB) (session_id : String) (ts : Nat)
    (tr : Option (List TLine)) :
    ((sessionTypes db session_id = [] →
        ∀ s ∈ (handle_stop db session_id ts tr).sessions,
          SessionRow.id s = session_id → SessionRow.signature s = none) ∧
     (¬ sessionTypes db session_id = [] →
        ∀ s ∈ (handle_stop db session_id ts tr).sessions,
          SessionRow.id s = session_id →
            SessionRow.signature s =
              some (sigJson (sortedHistogram (sessionTypes db session_id)))) ∧
     List.Sorted countDesc (sortedHistogram (sessionTypes db session_id)) ∧
     (∀ t n, (t, n) ∈ sortedHistogram (sessionTypes db session_id) ↔
        t ∈ sessionTypes db session_id ∧ n = (sessionTypes db session_id).count t)) ∧
    dbE2.sessions.map (fun s => (s.ended_at, s.signature)) =
      [(some 9, some "[[\"file_read\", 2], [\"command\", 1]]")] := by
  refine ⟨⟨?_, ?_, sorted_sortedHistogram _, fun t n => mem_sortedHistogram _ t n⟩,
    by decide⟩
  · intro hnil s hs hid
    have hsig := (handle_stop_fields db session_id ts tr s hs hid).2
    rw [hsig, hnil]
    rfl
  · intro hnil s hs hid
    have hsig := (handle_stop_fields db session_id ts tr s hs hid).2
    rw [hsig]
    have hE : (sessionTypes db session_id).isEmpty = false := by
      cases hl : sessionTypes db session_id with
      | nil => exact absurd hl hnil
      | cons a l => rfl
    simp [hE]

/-- Witness for C8 on the three-observation fixture. -/
theorem stop_signature_histogram_witness :
    ¬ sessionTypes dbE "s" = [] ∧
    SessionRow.signature ⟨"s", "nmem", 0, some 9,
        some "[[\"file_read\", 2], [\"command\", 1]]"⟩ =
      some (sigJson (sortedHistogram (sessionTypes dbE "s"))) :=
  ⟨by decide,
   (stop_signature_histogram dbE "s" 9 none).1.2.1 (by decide)
     ⟨"s", "nmem", 0, some 9, some "[[\"file_read\", 2], [\"command\", 1]]"⟩
     (by decide) rfl⟩

/-- C9: a scan with a missing transcript is a no-op returning the previously
known current prompt id without writing any prompt or cursor rows; the
enclosing PostToolUse handler still inserts exactly one Observation; and
malformed lines in a scanned region are skipped without affecting the
prompts produced or the returned current prompt. -/
theorem degraded_scan_behavior (home : String) (db : DB)
    (session_id cwd tool_name : String) (ts : Nat) (ti : ToolInput) :
    scan_transcript db session_id none ts = (db, get_current_prompt_id db session_id) ∧
    (handle_post_tool_use home db session_id cwd ts tool_name ti none).observations.length =
      db.observations.length + 1 ∧
    (∀ lines : List TLine, getCursor db session_id = 0 →
      (scan_transcript db session_id (some (lines.filter (fun l => !l.isSkip))) ts).1.prompts =
        (scan_transcript db session_id (some lines) ts).1.prompts ∧
      (scan_transcript db session_id (some (lines.filter (fun l => !l.isSkip))) ts).2 =
        (scan_transcript db session_id (some lines) ts).2) := by
  refine ⟨rfl, ?_, ?_⟩
  · rw [(post_tool_use_tables home db session_id cwd ts tool_name ti none).2.2]
    simp
  · intro lines hcur
    simp only [scan_transcript]
    rw [hcur, List.drop_zero, List.drop_zero, foldl_scanLine_filter]
    exact ⟨rfl, rfl⟩

/-- Witness for C9: a region with a malformed line scans like the region
without it. -/
theorem degraded_scan_behavior_witness :
    (scan_transcript db0 "s"
        (some ([TLine.skip, thinkLine "w"].filter (fun l => !l.isSkip))) 1).1.prompts =
      (scan_transcript db0 "s" (some [TLine.skip, thinkLine "w"]) 1).1.prompts :=
  ((degraded_scan_behavior "/root" db0 "s" "/w" "Bash" 1 {}).2.2
    [TLine.skip, thinkLine "w"] (by decide)).1

/-- C10: an invocation whose payload fails to parse, or whose session_id is
absent or the empty string, is discarded before any handler runs: the
database is returned unchanged and no error is raised (the function is
total). -/
theorem missing_session_id_discarded (home : String) (db : DB) (ts : Nat)
    (p : Payload) (h : p.session_id = none ∨ p.session_id = some "") :
    main home db ts none = db ∧ main home db ts (some p) = db := by
  refine ⟨rfl, ?_⟩
  rcases h with h | h <;> simp [main, h]

/-- Witness for C10 at a concrete empty-string session id. -/
theorem missing_session_id_discarded_witness :
    main "/root" db0 5 (some ⟨"Stop", some "", "", "startup", "", "", {}, none⟩) = db0 :=
  (missing_session_id_discarded "/root" db0 5
    ⟨"Stop", some "", "", "startup", "", "", {}, none⟩ (Or.inr rfl)).2

end Extract
